import Mathlib

/-!
Shallow embedding of the wfo-parser pipeline (character-level lexer,
token-level parser, statement-level compiler) translated from the Rust
sources, together with theorems checking the specification's claims.

Modelling conventions:
* Rust `f64` values are modelled as exact rationals plus explicit
  infinity and NaN markers (`F64`); decimal-to-binary rounding is not
  modelled, which is irrelevant to the claims (they involve only exactly
  representable values and NaN-ness, which is a property of the literal).
* Rust panics (`expect` on `Option`/`Result`, explicit aborts) are
  modelled as `Except.error` outcomes carrying the panic message with a
  "panic: " prefix: in both cases the computation produces no result list.
* Machine integers (`u64`, `usize`) are modelled as `Nat`; the one place
  where wrap-around is reachable (`index.pos as usize - 1` in
  `VertexData::compile` with `pos = 0`) is modelled explicitly with
  `% 2 ^ 64` (release-mode wrapping subtraction).
* Characters come from single bytes (`char::from(u8)`), so only code
  points below 256 can occur; `rust_is_whitespace` lists the Unicode
  White_Space code points in that range.
-/

deriving instance DecidableEq for Except

namespace Wfo

/-- The error/message type (`String`), under a name that stays visible
inside namespaces whose inductive declares a constructor called
`String`. -/
abbrev ErrString := String

/-- Model of Rust `f64` values as produced by `f64::from_str`: NaN,
signed infinity, or an exact finite rational. -/
inductive F64 where
  | nan : F64
  | inf : Bool → F64
  | finite : ℚ → F64
deriving DecidableEq

/-- `nan_safe_float::Float = ordered_float::NotNan<f64>`: an `f64` that is
not NaN. NaN is excluded at the type level, mirroring `NotNan`. -/
inductive Float where
  | inf : Bool → Float
  | finite : ℚ → Float
deriving DecidableEq

/-- `NotNan::new` (used as `Float::new` in the source): rejects NaN. -/
def Float.new : F64 → Except Unit Float
  | F64.nan => Except.error ()
  | F64.inf b => Except.ok (Float.inf b)
  | F64.finite q => Except.ok (Float.finite q)

/-- `token::TokenType`. -/
inductive TokenType where
  | COMMENT
  | MTLLIB
  | OBJECT
  | VERTEX
  | NORMAL
  | TEXCOORD
  | USEMTL
  | FACE
  | ILLUM
  | NUMBER
  | STRING
  | POLYGON
  | SEPARATOR
  | LINEBREAK
deriving DecidableEq

/-- `TokenType::from_str`: the keyword table of the lexer. Note that the
source table contains nine entries, including "comment". -/
def TokenType.from_str (name : String) : Option TokenType :=
  if name = "comment" then some TokenType.COMMENT
  else if name = "mtllib" then some TokenType.MTLLIB
  else if name = "o" then some TokenType.OBJECT
  else if name = "v" then some TokenType.VERTEX
  else if name = "vn" then some TokenType.NORMAL
  else if name = "vt" then some TokenType.TEXCOORD
  else if name = "usemtl" then some TokenType.USEMTL
  else if name = "f" then some TokenType.FACE
  else if name = "s" then some TokenType.ILLUM
  else none

/-- The `Display` implementation for `TokenType`. -/
def TokenType.display : TokenType → String
  | TokenType.COMMENT => "COMMENT"
  | TokenType.MTLLIB => "MTLLIB"
  | TokenType.OBJECT => "OBJECT"
  | TokenType.VERTEX => "VERTEX"
  | TokenType.NORMAL => "NORMAL"
  | TokenType.TEXCOORD => "TEXCOORD"
  | TokenType.USEMTL => "USEMTL"
  | TokenType.FACE => "FACE"
  | TokenType.ILLUM => "ILLUM"
  | TokenType.NUMBER => "NUMBER"
  | TokenType.STRING => "STRING"
  | TokenType.POLYGON => "POLYGON"
  | TokenType.SEPARATOR => "SEPARATOR"
  | TokenType.LINEBREAK => "LINEBREAK"

/-- `token::TokenDataType`. -/
inductive TokenDataType where
  | String : String → TokenDataType
  | Number : Float → TokenDataType
  | VertexPTN : Nat → Nat → Nat → TokenDataType
  | None : TokenDataType
deriving DecidableEq

/-- `token::Token`. -/
structure Token where
  token_type : TokenType
  data : TokenDataType
  line_number : Nat
  line_position : Nat
deriving DecidableEq

/-! ## Lexer (src/lexer.rs) -/

/-- `lexer::LexerState`. -/
inductive LexerState where
  | Initial
  | Token
  | LineBreak
  | Separator
  | Comment
deriving DecidableEq

/-- `lexer::Lexer`. -/
structure Lexer where
  char_buffer : String
  char_position : Nat
  line_number : Nat
  state : LexerState
deriving DecidableEq

/-- `Lexer::new` / `Default`. -/
def Lexer.new : Lexer :=
  { char_buffer := "", char_position := 0, line_number := 1, state := LexerState.Initial }

/-- Rust `char::is_whitespace` restricted to code points below 256 (the
input is read byte-wise, so larger code points cannot occur). -/
def rust_is_whitespace (c : Char) : Bool :=
  c = '\t' ∨ c = '\n' ∨ c = '\u000B' ∨ c = '\u000C' ∨ c = '\r' ∨
  c = ' ' ∨ c = '\u0085' ∨ c = '\u00A0'

/-- `Lexer::check_for_state_transition`. -/
def Lexer.check_for_state_transition (l : Lexer) (c : Char) : Option LexerState :=
  let is_n_line_ending := c = '\n'
  let is_line_ending := c = '\n' ∨ c = '\r'
  let is_whitespace := rust_is_whitespace c ∧ ¬is_line_ending
  let is_comment := c = '#'
  let is_normal := ¬(is_line_ending ∨ is_whitespace ∨ is_comment)
  let has_nr_line_ending := l.char_buffer = "\n\r"
  if is_line_ending ∧ l.state ≠ LexerState.LineBreak then some LexerState.LineBreak
  else if is_n_line_ending ∧ l.state = LexerState.LineBreak then some LexerState.LineBreak
  else if is_line_ending ∧ has_nr_line_ending then some LexerState.LineBreak
  else if is_line_ending ∧ l.state = LexerState.Comment then some LexerState.LineBreak
  else if is_whitespace ∧ l.state ≠ LexerState.Separator ∧ l.state ≠ LexerState.Comment then
    some LexerState.Separator
  else if is_comment ∧ l.state ≠ LexerState.Comment then some LexerState.Comment
  else if is_normal ∧ l.state ≠ LexerState.Token ∧ l.state ≠ LexerState.Comment then
    some LexerState.Token
  else none

/-- `Lexer::save_char`. -/
def Lexer.save_char (l : Lexer) (c : Char) : Lexer :=
  { l with char_buffer := l.char_buffer.push c, char_position := l.char_position + 1 }

/-! ### Number and polygon recognition used by the flush step -/

def is_ascii_digit (c : Char) : Bool := '0' ≤ c ∧ c ≤ '9'

def asciiLower (c : Char) : Char :=
  if 'A' ≤ c ∧ c ≤ 'Z' then Char.ofNat (c.toNat + 32) else c

def digitsToNat (ds : List Char) : Nat :=
  ds.foldl (fun a c => a * 10 + (c.toNat - 48)) 0

def spanDigits : List Char → List Char × List Char
  | [] => ([], [])
  | c :: cs =>
    if is_ascii_digit c then
      let (d, r) := spanDigits cs
      (c :: d, r)
    else ([], c :: cs)

/-- Exponent suffix of a Rust float literal: empty, or `e`/`E`, an optional
sign and at least one digit, reaching the end of the input. -/
def parseExp : List Char → Option (Bool × Nat)
  | [] => some (false, 0)
  | c :: cs =>
    if c = 'e' ∨ c = 'E' then
      let (en, cs2) :=
        match cs with
        | '+' :: r => (false, r)
        | '-' :: r => (true, r)
        | r => (false, r)
      let (d3, r3) := spanDigits cs2
      if d3 = [] ∨ r3 ≠ [] then none else some (en, digitsToNat d3)
    else none

/-- The exact rational value of a decimal literal
`mant / 10^fracLen * 10^(±e)`, negated when `neg` is set. -/
def decimalValue (neg : Bool) (mant : Nat) (fracLen : Nat) (expNeg : Bool) (e : Nat) : ℚ :=
  let num : Int := if neg then -(mant : Int) else (mant : Int)
  if expNeg then mkRat num (10 ^ (fracLen + e))
  else mkRat (num * 10 ^ e) (10 ^ fracLen)

/-- Model of `f64::from_str`: an optional sign followed by
(case-insensitively) `inf`/`infinity`/`nan` or a decimal mantissa with an
optional exponent. The numeric value is kept as an exact rational. -/
def parseF64 (s : String) : Option F64 :=
  match s.toList with
  | [] => none
  | cs =>
    let (neg, rest) :=
      match cs with
      | '+' :: r => (false, r)
      | '-' :: r => (true, r)
      | r => (false, r)
    if rest = [] then none
    else
      let low := rest.map asciiLower
      if low = "inf".toList ∨ low = "infinity".toList then some (F64.inf neg)
      else if low = "nan".toList then some F64.nan
      else
        let (d1, r1) := spanDigits rest
        let (d2, r2) :=
          match r1 with
          | '.' :: r => spanDigits r
          | _ => ([], r1)
        if d1 = [] ∧ d2 = [] then none
        else
          match parseExp r2 with
          | none => none
          | some (en, e) =>
            some (F64.finite (decimalValue neg (digitsToNat (d1 ++ d2)) d2.length en e))

/-- Model of `u64::from_str`: optional `+`, then at least one digit; values
of `2^64` or more overflow and fail. -/
def parseU64 (cs : List Char) : Option Nat :=
  let rest := match cs with | '+' :: r => r | r => r
  if rest = [] then none
  else if rest.all is_ascii_digit then
    let n := digitsToNat rest
    if n < 2 ^ 64 then some n else none
  else none

/-- The loop of `Lexer::lex_polygon`: split on `/` (at most two), empty
fields become 0, non-empty fields must parse as `u64`. -/
def lex_polygon_loop : List Char → List Char → List Nat → Nat → Option (List Nat)
  | [], buffer, data, _ =>
    if buffer = [] then some (data ++ [0])
    else
      match parseU64 buffer with
      | none => none
      | some n => some (data ++ [n])
  | c :: cs, buffer, data, divider_count =>
    if c ≠ '/' then lex_polygon_loop cs (buffer ++ [c]) data divider_count
    else if divider_count ≥ 2 then none
    else if buffer = [] then lex_polygon_loop cs [] (data ++ [0]) (divider_count + 1)
    else
      match parseU64 buffer with
      | none => none
      | some n => lex_polygon_loop cs [] (data ++ [n]) (divider_count + 1)

/-- `Lexer::lex_polygon`: a polygon reference carries exactly three fields. -/
def lex_polygon (text : List Char) : Option TokenDataType :=
  match lex_polygon_loop text [] [] 0 with
  | none => none
  | some [a, b, c] => some (TokenDataType.VertexPTN a b c)
  | some _ => none

/-- The classification fall-through chain of `Lexer::process_char_buffer`
for a buffered run flushed in the `Token` state, after the keyword and
number rules have failed: polygon, then string. -/
def classify_run_2 (s : String) (line pos : Nat) : Token :=
  match lex_polygon s.toList with
  | some d => { token_type := TokenType.POLYGON, data := d, line_number := line, line_position := pos }
  | none =>
    { token_type := TokenType.STRING, data := TokenDataType.String s,
      line_number := line, line_position := pos }

/-- The classification fall-through chain of `Lexer::process_char_buffer`
for a buffered run flushed in the `Token` state: keyword table, then
finite (non-NaN) number, then polygon, then string. -/
def classify_run (s : String) (line pos : Nat) : Token :=
  match TokenType.from_str s with
  | some tt => { token_type := tt, data := TokenDataType.None, line_number := line, line_position := pos }
  | none =>
    match parseF64 s with
    | some f =>
      match Float.new f with
      | Except.ok q =>
        { token_type := TokenType.NUMBER, data := TokenDataType.Number q,
          line_number := line, line_position := pos }
      | Except.error _ => classify_run_2 s line pos
    | none => classify_run_2 s line pos

/-- `Lexer::process_char_buffer`: flush the buffered character run as one
token (or nothing when the buffer is empty). -/
def Lexer.process_char_buffer (l : Lexer) : Lexer × Option Token :=
  if l.char_buffer.length = 0 then (l, none)
  else
    let buf := l.char_buffer
    let char_pos := l.char_position - buf.length + 1
    if l.state = LexerState.Comment then
      ({ l with char_buffer := "" },
       some { token_type := TokenType.COMMENT, data := TokenDataType.String buf,
              line_number := l.line_number, line_position := char_pos })
    else if l.state = LexerState.LineBreak then
      ({ l with char_buffer := "", char_position := 0, line_number := l.line_number + 1 },
       some { token_type := TokenType.LINEBREAK, data := TokenDataType.String buf,
              line_number := l.line_number, line_position := char_pos })
    else if l.state = LexerState.Separator then
      ({ l with char_buffer := "" },
       some { token_type := TokenType.SEPARATOR, data := TokenDataType.None,
              line_number := l.line_number, line_position := char_pos })
    else
      ({ l with char_buffer := "" }, some (classify_run buf l.line_number char_pos))

/-- One iteration of the `Lexer::lex_tokens` loop on one input character:
on a state transition, flush the buffer and enter the new state; then save
the character. -/
def Lexer.lexStep (l : Lexer) (c : Char) : Lexer × Option Token :=
  match l.check_for_state_transition c with
  | some s =>
    let (l2, t) := l.process_char_buffer
    (Lexer.save_char { l2 with state := s } c, t)
  | none => (l.save_char c, none)

/-- `Lexer::lex_tokens`: consume the whole character stream, flushing the
pending buffer at end of input. -/
def Lexer.lex_tokens (l : Lexer) : List Char → List Token
  | [] => (l.process_char_buffer).2.toList
  | c :: cs =>
    let (l2, t) := l.lexStep c
    t.toList ++ l2.lex_tokens cs

/-! ## Vertex data model (src/vertex.rs) -/

/-- `vertex::VertexFormat` (the copy in src/vertex.rs, the one the
compiler uses; src/vertex_format.rs holds a duplicate of the same tag
set, embedded below as `VertexFormatDup.from_indices`). -/
inductive VertexFormat where
  | Unknown
  | VertexP
  | VertexPN
  | VertexPT
  | VertexPNT
deriving DecidableEq

/-- `vertex::VertexFormat::from_indices`. A zero position index panics in
the source ("Vertex format must have position index"), modelled as an
error outcome. -/
def VertexFormat.from_indices (indices : Nat × Nat × Nat) : Except String VertexFormat :=
  if indices.1 = 0 then Except.error "Vertex format must have position index"
  else if indices.2.1 = 0 ∧ indices.2.2 = 0 then Except.ok VertexFormat.VertexP
  else if indices.2.2 = 0 then Except.ok VertexFormat.VertexPT
  else if indices.2.1 = 0 then Except.ok VertexFormat.VertexPN
  else Except.ok VertexFormat.VertexPNT

/-- `vertex_format::VertexFormat::from_indices`: the duplicate definition
in src/vertex_format.rs over the same tag set. -/
def VertexFormatDup.from_indices (indices : Nat × Nat × Nat) : Except String VertexFormat :=
  if indices.1 = 0 then Except.error "Vertex format must have position index"
  else if indices.2.1 = 0 ∧ indices.2.2 = 0 then Except.ok VertexFormat.VertexP
  else if indices.2.2 = 0 then Except.ok VertexFormat.VertexPN
  else if indices.2.1 = 0 then Except.ok VertexFormat.VertexPT
  else Except.ok VertexFormat.VertexPNT

/-- `vertex::VertexDataIndex`. -/
structure VertexDataIndex where
  format : VertexFormat
  pos : Nat
  normal : Nat
  tex_coord : Nat
deriving DecidableEq

/-- `VertexDataIndex::from_indices`: the raw face triple is in
(position, texcoord, normal) source order; internal storage reorders to
(pos, normal, tex_coord). -/
def VertexDataIndex.from_indices (indices : Nat × Nat × Nat) : Except String VertexDataIndex := do
  let fmt ← VertexFormat.from_indices indices
  Except.ok { format := fmt, pos := indices.1, normal := indices.2.2, tex_coord := indices.2.1 }

/-- `vertex::VertexData`. -/
structure VertexData where
  format : VertexFormat
  pos : Float × Float × Float
  normal : Option (Float × Float × Float)
  tex_coord : Option (Float × Float)
deriving DecidableEq

def VertexData.vertex_p_from_floats (x y z : Float) : VertexData :=
  { format := VertexFormat.VertexP, pos := (x, y, z), normal := none, tex_coord := none }

def VertexData.vertex_pn_from_floats (px py pz nx ny nz : Float) : VertexData :=
  { format := VertexFormat.VertexPN, pos := (px, py, pz), normal := some (nx, ny, nz),
    tex_coord := none }

def VertexData.vertex_pt_from_floats (px py pz tx ty : Float) : VertexData :=
  { format := VertexFormat.VertexPT, pos := (px, py, pz), normal := none,
    tex_coord := some (tx, ty) }

def VertexData.vertex_pnt_from_floats (px py pz nx ny nz tx ty : Float) : VertexData :=
  { format := VertexFormat.VertexPNT, pos := (px, py, pz), normal := some (nx, ny, nz),
    tex_coord := some (tx, ty) }

/-- `index as usize - 1` on a `u64` index: release-mode wrapping
subtraction modulo `2^64` (for `index = 0` this wraps to `2^64 - 1`). -/
def usize_sub1 (n : Nat) : Nat := (n + (2 ^ 64 - 1)) % 2 ^ 64

def VertexData.compile_vertex_p (index : VertexDataIndex)
    (position_buffer : List (Float × Float × Float)) : Except String VertexData :=
  match position_buffer.get? (usize_sub1 index.pos) with
  | none => Except.error "Bad position index"
  | some p =>
    Except.ok { format := VertexFormat.VertexP, pos := p, normal := none, tex_coord := none }

def VertexData.compile_vertex_pn (index : VertexDataIndex)
    (position_buffer normal_buffer : List (Float × Float × Float)) :
    Except String VertexData :=
  match position_buffer.get? (usize_sub1 index.pos) with
  | none => Except.error "Bad position index"
  | some p =>
    match normal_buffer.get? (usize_sub1 index.normal) with
    | none => Except.error "Bad normal index"
    | some n =>
      Except.ok { format := VertexFormat.VertexPN, pos := p, normal := some n, tex_coord := none }

def VertexData.compile_vertex_pt (index : VertexDataIndex)
    (position_buffer : List (Float × Float × Float))
    (tex_coord_buffer : List (Float × Float)) : Except String VertexData :=
  match position_buffer.get? (usize_sub1 index.pos) with
  | none => Except.error "Bad position index"
  | some p =>
    match tex_coord_buffer.get? (usize_sub1 index.tex_coord) with
    | none => Except.error "Bad texture coordinate index"
    | some t =>
      Except.ok { format := VertexFormat.VertexPT, pos := p, normal := none, tex_coord := some t }

def VertexData.compile_vertex_pnt (index : VertexDataIndex)
    (position_buffer normal_buffer : List (Float × Float × Float))
    (tex_coord_buffer : List (Float × Float)) : Except String VertexData :=
  match position_buffer.get? (usize_sub1 index.pos) with
  | none => Except.error "Bad position index"
  | some p =>
    match normal_buffer.get? (usize_sub1 index.normal) with
    | none => Except.error "Bad normal index"
    | some n =>
      match tex_coord_buffer.get? (usize_sub1 index.tex_coord) with
      | none => Except.error "Bad texture coordinate index"
      | some t =>
        Except.ok { format := VertexFormat.VertexPNT, pos := p, normal := some n,
                    tex_coord := some t }

/-- `VertexData::compile`: resolve a `VertexDataIndex` against the
accumulation buffers (1-based lookup). -/
def VertexData.compile (index : VertexDataIndex)
    (position_buffer normal_buffer : List (Float × Float × Float))
    (tex_coord_buffer : List (Float × Float)) : Except String VertexData :=
  match index.format with
  | VertexFormat.Unknown => Except.error "Cannot compile vertex when format is unknown"
  | VertexFormat.VertexP => VertexData.compile_vertex_p index position_buffer
  | VertexFormat.VertexPN => VertexData.compile_vertex_pn index position_buffer normal_buffer
  | VertexFormat.VertexPT => VertexData.compile_vertex_pt index position_buffer tex_coord_buffer
  | VertexFormat.VertexPNT =>
    VertexData.compile_vertex_pnt index position_buffer normal_buffer tex_coord_buffer

/-! ## Object3d (src/object3d.rs) -/

/-- `object3d::Object3d`. -/
structure Object3d where
  name : String
  format : VertexFormat
  vertex_buffer : List VertexData
  index_buffer : List Nat
deriving DecidableEq

/-- `Object3d::from`. -/
def Object3d.from (name : String) : Object3d :=
  { name := name, format := VertexFormat.Unknown, vertex_buffer := [], index_buffer := [] }

/-- The linear duplicate scan of `Object3d::add_vertex`: first index of a
structurally equal vertex. -/
def find_index (vb : List VertexData) (v : VertexData) : Option Nat :=
  match vb with
  | [] => none
  | x :: rest => if x = v then some 0 else (find_index rest v).map (· + 1)

/-- `Object3d::add_vertex`: adopt the vertex format when unknown, reject a
format change, then dedup via a linear scan of the vertex buffer. -/
def Object3d.add_vertex (o : Object3d) (new_vertex : VertexData) : Except String Object3d :=
  let o := if o.format = VertexFormat.Unknown then { o with format := new_vertex.format } else o
  if o.format ≠ new_vertex.format then
    Except.error "Compilation error: Unexpected vertex format change"
  else
    match find_index o.vertex_buffer new_vertex with
    | some i => Except.ok { o with index_buffer := o.index_buffer ++ [i] }
    | none =>
      Except.ok { o with index_buffer := o.index_buffer ++ [o.vertex_buffer.length],
                         vertex_buffer := o.vertex_buffer ++ [new_vertex] }

/-! ## Statements (src/statement.rs) -/

/-- `statement::StatementType`. -/
inductive StatementType where
  | COMMENT
  | MTLLIB
  | OBJECT
  | VERTEX
  | NORMAL
  | TEXCOORD
  | USEMTL
  | FACE
  | ILLUM
deriving DecidableEq

/-- `statement::StatementDataType`. -/
inductive StatementDataType where
  | String : String → StatementDataType
  | Number3D : Float → Float → Float → StatementDataType
  | Number2D : Float → Float → StatementDataType
  | Number : Float → StatementDataType
  | FacePTN : Nat → Nat → Nat → Nat → Nat → Nat → Nat → Nat → Nat → StatementDataType
  | None : StatementDataType
deriving DecidableEq

def StatementDataType.number_3d_as_tuple : StatementDataType → Option (Float × Float × Float)
  | StatementDataType.Number3D x y z => some (x, y, z)
  | _ => none

def StatementDataType.number_2d_as_tuple : StatementDataType → Option (Float × Float)
  | StatementDataType.Number2D x y => some (x, y)
  | _ => none

/-- `StatementDataType::face_as_index_tuples`: decode the nine-component
face tuple into three `VertexDataIndex` values. The inner
`VertexFormat::from_indices` call can panic (zero position index), hence
the `Except` layer. -/
def StatementDataType.face_as_index_tuples :
    StatementDataType → Except ErrString (Option (List VertexDataIndex))
  | StatementDataType.FacePTN xp xn xt yp yn yt zp zn zt => do
    let v1 ← VertexDataIndex.from_indices (xp, xn, xt)
    let v2 ← VertexDataIndex.from_indices (yp, yn, yt)
    let v3 ← VertexDataIndex.from_indices (zp, zn, zt)
    Except.ok (some [v1, v2, v3])
  | _ => Except.ok none

/-- `statement::Statement`. -/
structure Statement where
  statement_type : StatementType
  data : StatementDataType
  line_number : Nat
  line_position : Nat
deriving DecidableEq

/-! ## Parser (src/parser.rs) -/

/-- `parser::Parser` (its mutable state, passed explicitly here). -/
structure Parser where
  statement_type : Option StatementType
  statement_data : StatementDataType
  statement_line_number : Nat
  statement_line_position : Nat
  data_buffer : List Float
  index_buffer : List Nat
  parsed_token_count : Nat
  next_expected_token : TokenType
deriving DecidableEq

/-- `Parser::new` / `Default`. -/
def Parser.new : Parser :=
  { statement_type := none, statement_data := StatementDataType.None,
    statement_line_number := 0, statement_line_position := 0,
    data_buffer := [], index_buffer := [], parsed_token_count := 0,
    next_expected_token := TokenType.COMMENT }

def Parser.convert_token_data_to_statement_data : TokenDataType → StatementDataType
  | TokenDataType.String s => StatementDataType.String s
  | TokenDataType.None => StatementDataType.None
  | _ => StatementDataType.None

def Parser.convert_token_type_to_statement_type : TokenType → Option StatementType
  | TokenType.COMMENT => some StatementType.COMMENT
  | TokenType.MTLLIB => some StatementType.MTLLIB
  | TokenType.OBJECT => some StatementType.OBJECT
  | TokenType.VERTEX => some StatementType.VERTEX
  | TokenType.NORMAL => some StatementType.NORMAL
  | TokenType.TEXCOORD => some StatementType.TEXCOORD
  | TokenType.USEMTL => some StatementType.USEMTL
  | TokenType.FACE => some StatementType.FACE
  | TokenType.ILLUM => some StatementType.ILLUM
  | _ => none

def Parser.get_unexpected_token_error (t : Token) : ErrString :=
  "Unexpected token: " ++ t.token_type.display

/-- `Parser::reset_state` (note: `next_expected_token` is not reset in the
source). -/
def Parser.reset_state (p : Parser) : Parser :=
  { p with statement_type := none, statement_data := StatementDataType.None,
           statement_line_number := 0, statement_line_position := 0,
           parsed_token_count := 0, data_buffer := [], index_buffer := [] }

/-- `Parser::extract_statement`: the source `expect`s the statement type
to be set; the unset case is a panic, modelled as an error. -/
def Parser.extract_statement (p : Parser) : Except ErrString (Parser × Statement) :=
  match p.statement_type with
  | none => Except.error "panic: Statement to be set when extracting statement"
  | some st =>
    Except.ok (p.reset_state,
      { statement_type := st, data := p.statement_data,
        line_number := p.statement_line_number, line_position := p.statement_line_position })

/-- `Parser::handle_expecting_header_state`. -/
def Parser.handle_expecting_header_state (p : Parser) (cur_token : Token) :
    Except ErrString Parser :=
  if cur_token.token_type = TokenType.SEPARATOR ∨ cur_token.token_type = TokenType.LINEBREAK then
    Except.ok p
  else
    match Parser.convert_token_type_to_statement_type cur_token.token_type with
    | none => Except.error "Expected statement start"
    | some st =>
      Except.ok { p with
        statement_type := some st,
        statement_data := Parser.convert_token_data_to_statement_data cur_token.data,
        statement_line_number := cur_token.line_number,
        statement_line_position := cur_token.line_position,
        parsed_token_count := 1,
        next_expected_token :=
          if cur_token.token_type = TokenType.COMMENT then TokenType.LINEBREAK
          else TokenType.SEPARATOR }

/-- `Parser::parse_comment_statement`. -/
def Parser.parse_comment_statement (p : Parser) (t : Token) :
    Except ErrString (Parser × Option Statement) :=
  if t.token_type ≠ TokenType.LINEBREAK then
    Except.error (Parser.get_unexpected_token_error t)
  else do
    let (p2, s) ← Parser.extract_statement
      { p with parsed_token_count := p.parsed_token_count + 1 }
    Except.ok (p2, some s)

/-- `Parser::parse_single_string_statement`. -/
def Parser.parse_single_string_statement (p : Parser) (t : Token) :
    Except ErrString (Parser × Option Statement) :=
  if p.next_expected_token = TokenType.SEPARATOR ∧ t.token_type = TokenType.SEPARATOR then
    Except.ok ({ p with next_expected_token := TokenType.STRING,
                        parsed_token_count := p.parsed_token_count + 1 }, none)
  else if p.next_expected_token = TokenType.STRING ∧ t.token_type = TokenType.STRING then
    Except.ok ({ p with statement_data := Parser.convert_token_data_to_statement_data t.data,
                        next_expected_token := TokenType.LINEBREAK,
                        parsed_token_count := p.parsed_token_count + 1 }, none)
  else if p.next_expected_token = TokenType.LINEBREAK ∧ t.token_type = TokenType.LINEBREAK then do
    let (p2, s) ← Parser.extract_statement
      { p with parsed_token_count := p.parsed_token_count + 1 }
    Except.ok (p2, some s)
  else
    Except.error (Parser.get_unexpected_token_error t)

/-- The fixed error string of `Parser::parse_number_statement`'s final
branch (the source formats the constant token kinds SEPARATOR and
LINEBREAK into it). -/
def Parser.number_statement_error : ErrString :=
  "Unexpected token. Expected \"SEPARATOR\" but found \"LINEBREAK\""

/-- `Parser::parse_number_statement`. -/
def Parser.parse_number_statement (p : Parser) (t : Token) (expected_number_count : Nat) :
    Except ErrString (Parser × Option Statement) :=
  let tokens_until_line_break := 1 + expected_number_count * 2
  if p.next_expected_token = TokenType.SEPARATOR ∧ t.token_type = TokenType.SEPARATOR then
    Except.ok ({ p with next_expected_token := TokenType.NUMBER,
                        parsed_token_count := p.parsed_token_count + 1 }, none)
  else if p.next_expected_token = TokenType.NUMBER ∧ t.token_type = TokenType.NUMBER then
    match t.data with
    | TokenDataType.Number x =>
      let count := p.parsed_token_count + 1
      Except.ok ({ p with data_buffer := p.data_buffer ++ [x],
                          parsed_token_count := count,
                          next_expected_token :=
                            if count ≥ tokens_until_line_break then TokenType.LINEBREAK
                            else TokenType.SEPARATOR }, none)
    | _ => Except.error "Number token did not have a number as data"
  else if p.next_expected_token = TokenType.LINEBREAK ∧ t.token_type = TokenType.LINEBREAK then
    match expected_number_count, p.data_buffer with
    | 3, [x, y, z] => do
      let (p2, s) ← Parser.extract_statement
        { p with statement_data := StatementDataType.Number3D x y z,
                 parsed_token_count := p.parsed_token_count + 1 }
      Except.ok (p2, some s)
    | 2, [x, y] => do
      let (p2, s) ← Parser.extract_statement
        { p with statement_data := StatementDataType.Number2D x y,
                 parsed_token_count := p.parsed_token_count + 1 }
      Except.ok (p2, some s)
    | 1, [x] => do
      let (p2, s) ← Parser.extract_statement
        { p with statement_data := StatementDataType.Number x,
                 parsed_token_count := p.parsed_token_count + 1 }
      Except.ok (p2, some s)
    | _, _ => Except.error Parser.number_statement_error
  else
    Except.error Parser.number_statement_error

/-- `Parser::is_expected_token`. -/
def Parser.is_expected_token (p : Parser) (t : Token) (expected_type : TokenType) : Bool :=
  p.next_expected_token = t.token_type ∧ t.token_type = expected_type

/-- `Parser::parse_face_statement`. -/
def Parser.parse_face_statement (p : Parser) (t : Token) :
    Except ErrString (Parser × Option Statement) :=
  if p.is_expected_token t TokenType.SEPARATOR then
    Except.ok ({ p with next_expected_token := TokenType.POLYGON,
                        parsed_token_count := p.parsed_token_count + 1 }, none)
  else if p.is_expected_token t TokenType.POLYGON then
    match t.data with
    | TokenDataType.VertexPTN x y z =>
      let count := p.parsed_token_count + 1
      Except.ok ({ p with index_buffer := p.index_buffer ++ [x, y, z],
                          parsed_token_count := count,
                          next_expected_token :=
                            if count ≥ 7 then TokenType.LINEBREAK
                            else TokenType.SEPARATOR }, none)
    | _ => Except.error "Expected token data to be VertexPNT"
  else if p.is_expected_token t TokenType.LINEBREAK then
    match p.index_buffer with
    | [a, b, c, d, e, f, g, h, i] => do
      let (p2, s) ← Parser.extract_statement
        { p with statement_data := StatementDataType.FacePTN a b c d e f g h i,
                 parsed_token_count := p.parsed_token_count + 1 }
      Except.ok (p2, some s)
    | _ => Except.error "Expected face statement to have 9 indices"
  else
    Except.error (Parser.get_unexpected_token_error t)

/-- `Parser::handle_token`: dispatch on the statement kind in progress. -/
def Parser.handle_token (p : Parser) (t : Token) : Except ErrString (Parser × Option Statement) :=
  match p.statement_type with
  | some StatementType.COMMENT => Parser.parse_comment_statement p t
  | some StatementType.MTLLIB => Parser.parse_single_string_statement p t
  | some StatementType.OBJECT => Parser.parse_single_string_statement p t
  | some StatementType.VERTEX => Parser.parse_number_statement p t 3
  | some StatementType.NORMAL => Parser.parse_number_statement p t 3
  | some StatementType.TEXCOORD => Parser.parse_number_statement p t 2
  | some StatementType.USEMTL => Parser.parse_single_string_statement p t
  | some StatementType.FACE => Parser.parse_face_statement p t
  | some StatementType.ILLUM => Parser.parse_number_statement p t 1
  | none => Except.ok (p, none)

/-- `Parser::parse_token`: one token of input, zero or one statement out. -/
def Parser.parse_token (p : Parser) (t : Token) : Except ErrString (Parser × Option Statement) :=
  match p.statement_type with
  | none => do
    let p2 ← Parser.handle_expecting_header_state p t
    Except.ok (p2, none)
  | some _ => Parser.handle_token p t

/-- `Parser::parse_tokens`, directly mirroring the source loop: feed every
token, collecting the statements that are emitted. -/
def Parser.parse_tokens (p : Parser) : List Token → Except ErrString (List Statement)
  | [] => Except.ok []
  | t :: ts => do
    let (p2, so) ← Parser.parse_token p t
    let rest ← Parser.parse_tokens p2 ts
    Except.ok (so.toList ++ rest)

/-- `Parser::parse_tokens` instrumented with the final parser state, for
reasoning about the state left behind by an unterminated statement. -/
def Parser.parse_tokens_aux (p : Parser) : List Token → Except ErrString (Parser × List Statement)
  | [] => Except.ok (p, [])
  | t :: ts => do
    let (p2, so) ← Parser.parse_token p t
    let (pf, rest) ← Parser.parse_tokens_aux p2 ts
    Except.ok (pf, so.toList ++ rest)

/-! ## Compiler (src/compiler.rs) -/

/-- `Option::expect` (a `None` panics with the message). -/
def expect_option (o : Option α) (msg : ErrString) : Except ErrString α :=
  match o with
  | none => Except.error ("panic: " ++ msg)
  | some a => Except.ok a

/-- `Result::expect` (an `Err` panics with the message and the error). -/
def expect_result (r : Except ErrString α) (msg : ErrString) : Except ErrString α :=
  match r with
  | Except.error e => Except.error ("panic: " ++ msg ++ ": " ++ e)
  | Except.ok a => Except.ok a

/-- `compiler::Compiler` (its mutable state, passed explicitly here). -/
structure Compiler where
  default_name : String
  cur_obj : Option Object3d
  position_buffer : List (Float × Float × Float)
  normal_buffer : List (Float × Float × Float)
  tex_coord_buffer : List (Float × Float)
deriving DecidableEq

/-- `Compiler::from_default_name`. -/
def Compiler.from_default_name (new_default_name : String) : Compiler :=
  { default_name := new_default_name, cur_obj := none,
    position_buffer := [], normal_buffer := [], tex_coord_buffer := [] }

def Compiler.handle_vertex_statement (c : Compiler) (s : Statement) :
    Except ErrString Compiler := do
  let t ← expect_option s.data.number_3d_as_tuple "Expected conversion"
  Except.ok { c with position_buffer := c.position_buffer ++ [t] }

def Compiler.handle_normal_statement (c : Compiler) (s : Statement) :
    Except ErrString Compiler := do
  let t ← expect_option s.data.number_3d_as_tuple "Expected conversion"
  Except.ok { c with normal_buffer := c.normal_buffer ++ [t] }

def Compiler.handle_tex_coord_statement (c : Compiler) (s : Statement) :
    Except ErrString Compiler := do
  let t ← expect_option s.data.number_2d_as_tuple "Expected conversion"
  Except.ok { c with tex_coord_buffer := c.tex_coord_buffer ++ [t] }

/-- `Compiler::handle_object_statement`: finalize the current object (if
any) into the results and start a fresh one. Returns the objects pushed to
the result list. -/
def Compiler.handle_object_statement (c : Compiler) (s : Statement) :
    Except ErrString (Compiler × List Object3d) :=
  match s.data with
  | StatementDataType.String x =>
    Except.ok ({ c with cur_obj := some (Object3d.from x) }, c.cur_obj.toList)
  | _ => Except.error "Object statement did not have string name"

/-- The loop body of `Compiler::handle_face_statement`: compile each
vertex index against the buffers and add it to the object. -/
def Compiler.add_face_vertices (pb nb : List (Float × Float × Float))
    (tb : List (Float × Float)) (o : Object3d) :
    List VertexDataIndex → Except ErrString Object3d
  | [] => Except.ok o
  | idx :: rest => do
    let v ← expect_result (VertexData.compile idx pb nb tb) "Expected vertex compilation"
    let o2 ← o.add_vertex v
    Compiler.add_face_vertices pb nb tb o2 rest

/-- `Compiler::handle_face_statement`: ensure a current object exists
(default-named if none), then resolve and add the three face vertices. -/
def Compiler.handle_face_statement (c : Compiler) (s : Statement) :
    Except ErrString Compiler := do
  let o0 := c.cur_obj.getD (Object3d.from c.default_name)
  let fiOpt ← s.data.face_as_index_tuples
  let fi ← expect_option fiOpt "Expected conversion"
  let o2 ← Compiler.add_face_vertices c.position_buffer c.normal_buffer c.tex_coord_buffer o0 fi
  Except.ok { c with cur_obj := some o2 }

/-- One statement of `Compiler::compile`'s match, returning the objects
pushed to the result list by this statement. -/
def Compiler.compile_statement (c : Compiler) (s : Statement) :
    Except ErrString (Compiler × List Object3d) :=
  match s.statement_type with
  | StatementType.COMMENT => Except.ok (c, [])
  | StatementType.MTLLIB => Except.ok (c, [])
  | StatementType.OBJECT => Compiler.handle_object_statement c s
  | StatementType.VERTEX => do
    let c2 ← Compiler.handle_vertex_statement c s
    Except.ok (c2, [])
  | StatementType.NORMAL => do
    let c2 ← Compiler.handle_normal_statement c s
    Except.ok (c2, [])
  | StatementType.TEXCOORD => do
    let c2 ← Compiler.handle_tex_coord_statement c s
    Except.ok (c2, [])
  | StatementType.USEMTL => Except.ok (c, [])
  | StatementType.FACE => do
    let c2 ← Compiler.handle_face_statement c s
    Except.ok (c2, [])
  | StatementType.ILLUM => Except.ok (c, [])

/-- The statement loop of `Compiler::compile`, accumulating the result
list in order. -/
def Compiler.compileAux (c : Compiler) : List Statement →
    Except ErrString (Compiler × List Object3d)
  | [] => Except.ok (c, [])
  | s :: rest => do
    let (c2, objs) ← Compiler.compile_statement c s
    let (cf, objs2) ← Compiler.compileAux c2 rest
    Except.ok (cf, objs ++ objs2)

/-- `Compiler::clean_up`: finalize a still-open current object (the source
returns `Ok` unconditionally). -/
def Compiler.clean_up (c : Compiler) : Compiler × List Object3d :=
  ({ c with cur_obj := none }, c.cur_obj.toList)

/-- `Compiler::compile`. -/
def Compiler.compile (c : Compiler) (statements : List Statement) :
    Except ErrString (List Object3d) := do
  let (c2, objs) ← Compiler.compileAux c statements
  let (_, objs2) := Compiler.clean_up c2
  Except.ok (objs ++ objs2)

/-- The full pipeline: lex the character stream, parse the tokens, compile
the statements with the caller-supplied default object name. -/
def compile_wfo_source (default_name : String) (input : String) :
    Except ErrString (List Object3d) := do
  let tokens := Lexer.new.lex_tokens input.toList
  let stmts ← Parser.new.parse_tokens tokens
  (Compiler.from_default_name default_name).compile stmts

/-! ## Supporting lemmas -/

/-- Membership in the keyword table: `TokenType::from_str` succeeds exactly
on its nine table entries. -/
theorem from_str_isSome_iff (s : String) :
    (TokenType.from_str s).isSome = true ↔
      s ∈ ["comment", "mtllib", "o", "v", "vn", "vt", "usemtl", "f", "s"] := by
  unfold TokenType.from_str
  split_ifs with h1 h2 h3 h4 h5 h6 h7 h8 h9 <;> simp_all

/-- Every token type `TokenType::from_str` can return is a statement
header kind. -/
def TokenType.is_statement_header : TokenType → Bool
  | TokenType.COMMENT => true
  | TokenType.MTLLIB => true
  | TokenType.OBJECT => true
  | TokenType.VERTEX => true
  | TokenType.NORMAL => true
  | TokenType.TEXCOORD => true
  | TokenType.USEMTL => true
  | TokenType.FACE => true
  | TokenType.ILLUM => true
  | _ => false

theorem from_str_header (s : String) (tt : TokenType)
    (h : TokenType.from_str s = some tt) : tt.is_statement_header = true := by
  unfold TokenType.from_str at h
  split_ifs at h <;> (injection h with h; subst h; rfl)

/-- The post-number fall-through classifies as POLYGON or STRING only. -/
theorem classify_run_2_type (s : String) (line pos : Nat) :
    (classify_run_2 s line pos).token_type = TokenType.POLYGON ∨
      (classify_run_2 s line pos).token_type = TokenType.STRING := by
  unfold classify_run_2
  cases lex_polygon s.toList <;> simp

/-- The keyword stage of the classification chain. -/
theorem classify_run_keyword (s : String) (line pos : Nat) (tt : TokenType)
    (h : TokenType.from_str s = some tt) :
    (classify_run s line pos).token_type = tt := by
  unfold classify_run
  rw [h]

/-- With the keyword stage failed, classification yields NUMBER, POLYGON
or STRING. -/
theorem classify_run_not_keyword (s : String) (line pos : Nat)
    (h : TokenType.from_str s = none) :
    (classify_run s line pos).token_type = TokenType.NUMBER ∨
    (classify_run s line pos).token_type = TokenType.POLYGON ∨
    (classify_run s line pos).token_type = TokenType.STRING := by
  unfold classify_run
  rw [h]
  cases hp : parseF64 s with
  | none => rcases classify_run_2_type s line pos with h2 | h2 <;> simp [h2]
  | some f =>
    cases hn : Float.new f with
    | ok q => simp [hn]
    | error e =>
      rcases classify_run_2_type s line pos with h2 | h2 <;> simp [hn, h2]

/-- On a line-ending character, `check_for_state_transition` either
transitions into `LineBreak` or makes no transition while already in
`LineBreak`. -/
theorem check_line_ending (l : Lexer) (c : Char) (hc : c = '\n' ∨ c = '\r') :
    l.check_for_state_transition c = some LexerState.LineBreak ∨
    (l.check_for_state_transition c = none ∧ l.state = LexerState.LineBreak) := by
  have hile : c = '\n' ∨ c = '\r' := hc
  unfold Lexer.check_for_state_transition
  dsimp only
  split_ifs with h1 h2 h3 h4 h5 h6 h7
  · exact Or.inl rfl
  · exact Or.inl rfl
  · exact Or.inl rfl
  · exact Or.inl rfl
  · exact absurd hile h5.1.2
  · rcases hc with rfl | rfl
    · exact absurd h6.1 (by decide)
    · exact absurd h6.1 (by decide)
  · exact absurd (Or.inl hile) h7.1
  · refine Or.inr ⟨rfl, ?_⟩
    by_contra hne
    exact h1 ⟨hile, hne⟩

/-- The linear scan returns an in-bounds position holding the candidate. -/
theorem find_index_some (vb : List VertexData) (v : VertexData) (i : Nat)
    (h : find_index vb v = some i) : i < vb.length ∧ vb.get? i = some v := by
  induction vb generalizing i with
  | nil => simp [find_index] at h
  | cons x rest ih =>
    unfold find_index at h
    by_cases hx : x = v
    · rw [if_pos hx] at h
      injection h with h
      subst h
      simp [hx]
    · rw [if_neg hx] at h
      cases hr : find_index rest v with
      | none => rw [hr] at h; simp at h
      | some j =>
        rw [hr] at h
        simp at h
        subst h
        obtain ⟨h1, h2⟩ := ih j hr
        constructor
        · simpa using h1
        · simpa using h2

/-- A candidate absent from the buffer is not found by the linear scan. -/
theorem find_index_not_mem (vb : List VertexData) (v : VertexData)
    (h : v ∉ vb) : find_index vb v = none := by
  induction vb with
  | nil => rfl
  | cons x rest ih =>
    simp at h
    unfold find_index
    rw [if_neg (fun hx => h.1 hx.symm), ih h.2]
    rfl

/-- Characterization of a successful `Object3d::add_vertex`: under a
compatible format, the result adopts the candidate's format and either
reuses the found slot or appends the candidate. -/
def add_vertex_result (o : Object3d) (v : VertexData) : Object3d :=
  match find_index o.vertex_buffer v with
  | some i => { o with format := v.format, index_buffer := o.index_buffer ++ [i] }
  | none =>
    { o with format := v.format, vertex_buffer := o.vertex_buffer ++ [v],
             index_buffer := o.index_buffer ++ [o.vertex_buffer.length] }

theorem add_vertex_ok (o : Object3d) (v : VertexData)
    (h : o.format = VertexFormat.Unknown ∨ o.format = v.format) :
    o.add_vertex v = Except.ok (add_vertex_result o v) := by
  unfold add_vertex_result
  unfold Object3d.add_vertex
  rcases h with hU | hEq
  · rw [if_pos hU]
    dsimp only
    cases hf : find_index o.vertex_buffer v <;> simp [hf]
  · by_cases hU : o.format = VertexFormat.Unknown
    · rw [if_pos hU]
      dsimp only
      cases hf : find_index o.vertex_buffer v <;> simp [hf]
    · rw [if_neg hU]
      dsimp only
      cases hf : find_index o.vertex_buffer v <;> simp [hf, hEq]

/-- A successful `add_vertex` implies the format guard was satisfied. -/
theorem add_vertex_ok_format (o : Object3d) (v : VertexData) (o2 : Object3d)
    (h : o.add_vertex v = Except.ok o2) :
    o.format = VertexFormat.Unknown ∨ o.format = v.format := by
  by_cases hU : o.format = VertexFormat.Unknown
  · exact Or.inl hU
  · by_cases hEq : o.format = v.format
    · exact Or.inr hEq
    · exfalso
      unfold Object3d.add_vertex at h
      rw [if_neg hU, if_pos hEq] at h
      exact Except.noConfusion h

/-- Inversion of `Except` bind. -/
theorem except_bind_ok {α β : Type} (e : Except ErrString α) (f : α → Except ErrString β)
    (b : β) (h : (e >>= f) = Except.ok b) : ∃ a, e = Except.ok a ∧ f a = Except.ok b := by
  cases e with
  | error err => simp [Bind.bind, Except.bind] at h
  | ok a =>
    refine ⟨a, rfl, ?_⟩
    simpa [Bind.bind, Except.bind] using h

theorem expect_result_ok {α : Type} (r : Except ErrString α) (msg : ErrString) (a : α)
    (h : expect_result r msg = Except.ok a) : r = Except.ok a := by
  cases r with
  | error e => simp [expect_result] at h
  | ok b => simpa [expect_result] using h

theorem expect_option_ok {α : Type} (o : Option α) (msg : ErrString) (a : α)
    (h : expect_option o msg = Except.ok a) : o = some a := by
  cases o with
  | none => simp [expect_option] at h
  | some b => simpa [expect_option] using h

/-- A vertex produced by `VertexData::compile` carries the index's format,
which is never Unknown. -/
theorem vcompile_ok_format (idx : VertexDataIndex)
    (pb nb : List (Float × Float × Float)) (tb : List (Float × Float)) (v : VertexData)
    (h : VertexData.compile idx pb nb tb = Except.ok v) :
    v.format = idx.format ∧ v.format ≠ VertexFormat.Unknown := by
  unfold VertexData.compile at h
  cases hf : idx.format <;> rw [hf] at h
  case Unknown => exact Except.noConfusion h
  case VertexP =>
    unfold VertexData.compile_vertex_p at h
    cases hp : pb.get? (usize_sub1 idx.pos) <;> rw [hp] at h
    · exact Except.noConfusion h
    · injection h with h
      subst h
      simp
  case VertexPN =>
    unfold VertexData.compile_vertex_pn at h
    cases hp : pb.get? (usize_sub1 idx.pos) <;> rw [hp] at h
    · exact Except.noConfusion h
    · cases hn : nb.get? (usize_sub1 idx.normal) <;> rw [hn] at h
      · exact Except.noConfusion h
      · injection h with h
        subst h
        simp
  case VertexPT =>
    unfold VertexData.compile_vertex_pt at h
    cases hp : pb.get? (usize_sub1 idx.pos) <;> rw [hp] at h
    · exact Except.noConfusion h
    · cases ht : tb.get? (usize_sub1 idx.tex_coord) <;> rw [ht] at h
      · exact Except.noConfusion h
      · injection h with h
        subst h
        simp
  case VertexPNT =>
    unfold VertexData.compile_vertex_pnt at h
    cases hp : pb.get? (usize_sub1 idx.pos) <;> rw [hp] at h
    · exact Except.noConfusion h
    · cases hn : nb.get? (usize_sub1 idx.normal) <;> rw [hn] at h
      · exact Except.noConfusion h
      · cases ht : tb.get? (usize_sub1 idx.tex_coord) <;> rw [ht] at h
        · exact Except.noConfusion h
        · injection h with h
          subst h
          simp

/-- The Object3d well-formedness invariant: uniform vertex format,
in-bounds indices, and Unknown format only while empty. -/
def objInv (o : Object3d) : Prop :=
  (∀ v ∈ o.vertex_buffer, v.format = o.format) ∧
  (∀ i ∈ o.index_buffer, i < o.vertex_buffer.length) ∧
  (o.format = VertexFormat.Unknown → o.vertex_buffer = [])

theorem objInv_from (name : String) : objInv (Object3d.from name) := by
  refine ⟨?_, ?_, ?_⟩ <;> simp [Object3d.from]

/-- `add_vertex` preserves the invariant for non-Unknown candidates. -/
theorem add_vertex_inv (o : Object3d) (v : VertexData) (o2 : Object3d)
    (hinv : objInv o) (hv : v.format ≠ VertexFormat.Unknown)
    (h : o.add_vertex v = Except.ok o2) : objInv o2 := by
  obtain ⟨hfmt, hidx, hemp⟩ := hinv
  have hcompat := add_vertex_ok_format o v o2 h
  rw [add_vertex_ok o v hcompat] at h
  injection h with h
  subst h
  have hof : ∀ w ∈ o.vertex_buffer, w.format = v.format := by
    intro w hw
    rcases hcompat with hU | hEq
    · rw [hemp hU] at hw
      simp at hw
    · rw [← hEq]
      exact hfmt w hw
  unfold add_vertex_result
  cases hf : find_index o.vertex_buffer v with
  | some i =>
    obtain ⟨hlt, _⟩ := find_index_some o.vertex_buffer v i hf
    refine ⟨?_, ?_, ?_⟩
    · intro w hw
      exact hof w hw
    · intro j hj
      simp at hj
      rcases hj with hj | hj
      · exact hidx j hj
      · subst hj
        exact hlt
    · intro hU
      exact absurd hU.symm (by simpa using hv.symm)
  | none =>
    refine ⟨?_, ?_, ?_⟩
    · intro w hw
      simp at hw
      rcases hw with hw | hw
      · exact hof w hw
      · subst hw
        rfl
    · intro j hj
      simp at hj
      rcases hj with hj | hj
      · have := hidx j hj
        simp
        omega
      · subst hj
        simp
    · intro hU
      exact absurd hU.symm (by simpa using hv.symm)

/-- The face-vertex loop preserves the invariant. -/
theorem add_face_vertices_inv (pb nb : List (Float × Float × Float))
    (tb : List (Float × Float)) (o : Object3d) (idxs : List VertexDataIndex)
    (o2 : Object3d) (hinv : objInv o)
    (h : Compiler.add_face_vertices pb nb tb o idxs = Except.ok o2) : objInv o2 := by
  induction idxs generalizing o with
  | nil =>
    unfold Compiler.add_face_vertices at h
    injection h with h
    subst h
    exact hinv
  | cons idx rest ih =>
    unfold Compiler.add_face_vertices at h
    obtain ⟨v, hv, h⟩ := except_bind_ok _ _ _ h
    obtain ⟨o1, ho1, h⟩ := except_bind_ok _ _ _ h
    have hvc := expect_result_ok _ _ _ hv
    have hfmt := (vcompile_ok_format idx pb nb tb v hvc).2
    exact ih o1 (add_vertex_inv o v o1 hinv hfmt ho1) h

/-- The compiler-state invariant: any current object is well-formed. -/
def cinv (c : Compiler) : Prop := ∀ o, c.cur_obj = some o → objInv o

/-- Unfolded success of `handle_vertex_statement`: the position buffer
grows by the statement's tuple, everything else is unchanged. -/
theorem handle_vertex_ok (c : Compiler) (s : Statement) (c2 : Compiler)
    (h : Compiler.handle_vertex_statement c s = Except.ok c2) :
    ∃ t, s.data.number_3d_as_tuple = some t ∧
      c2 = { c with position_buffer := c.position_buffer ++ [t] } := by
  unfold Compiler.handle_vertex_statement at h
  obtain ⟨t, ht, h⟩ := except_bind_ok _ _ _ h
  injection h with h
  exact ⟨t, expect_option_ok _ _ _ ht, h.symm⟩

theorem handle_normal_ok (c : Compiler) (s : Statement) (c2 : Compiler)
    (h : Compiler.handle_normal_statement c s = Except.ok c2) :
    ∃ t, s.data.number_3d_as_tuple = some t ∧
      c2 = { c with normal_buffer := c.normal_buffer ++ [t] } := by
  unfold Compiler.handle_normal_statement at h
  obtain ⟨t, ht, h⟩ := except_bind_ok _ _ _ h
  injection h with h
  exact ⟨t, expect_option_ok _ _ _ ht, h.symm⟩

theorem handle_tex_coord_ok (c : Compiler) (s : Statement) (c2 : Compiler)
    (h : Compiler.handle_tex_coord_statement c s = Except.ok c2) :
    ∃ t, s.data.number_2d_as_tuple = some t ∧
      c2 = { c with tex_coord_buffer := c.tex_coord_buffer ++ [t] } := by
  unfold Compiler.handle_tex_coord_statement at h
  obtain ⟨t, ht, h⟩ := except_bind_ok _ _ _ h
  injection h with h
  exact ⟨t, expect_option_ok _ _ _ ht, h.symm⟩

/-- Unfolded success of `handle_object_statement`: the old current object
(if any) is emitted and a fresh one is started. -/
theorem handle_object_ok (c : Compiler) (s : Statement) (c2 : Compiler)
    (objs : List Object3d)
    (h : Compiler.handle_object_statement c s = Except.ok (c2, objs)) :
    ∃ x, s.data = StatementDataType.String x ∧
      c2 = { c with cur_obj := some (Object3d.from x) } ∧ objs = c.cur_obj.toList := by
  unfold Compiler.handle_object_statement at h
  cases hd : s.data <;> rw [hd] at h <;> try exact Except.noConfusion h
  case String x =>
    injection h with h
    cases h
    exact ⟨x, rfl, rfl, rfl⟩

/-- Unfolded success of `handle_face_statement`: the new current object is
the result of adding the face's vertices to the (possibly defaulted)
current object; nothing is emitted. -/
theorem handle_face_ok (c : Compiler) (s : Statement) (c2 : Compiler)
    (h : Compiler.handle_face_statement c s = Except.ok c2) :
    ∃ fi o2,
      Compiler.add_face_vertices c.position_buffer c.normal_buffer c.tex_coord_buffer
        (c.cur_obj.getD (Object3d.from c.default_name)) fi = Except.ok o2 ∧
      c2 = { c with cur_obj := some o2 } := by
  unfold Compiler.handle_face_statement at h
  obtain ⟨fiOpt, _, h⟩ := except_bind_ok _ _ _ h
  obtain ⟨fi, _, h⟩ := except_bind_ok _ _ _ h
  obtain ⟨o2, ho2, h⟩ := except_bind_ok _ _ _ h
  injection h with h
  exact ⟨fi, o2, ho2, h.symm⟩

/-- One statement of the compiler preserves the state invariant, and every
object it pushes to the result list is well-formed. -/
theorem compile_statement_inv (c : Compiler) (s : Statement) (c2 : Compiler)
    (objs : List Object3d) (hc : cinv c)
    (h : Compiler.compile_statement c s = Except.ok (c2, objs)) :
    cinv c2 ∧ ∀ o ∈ objs, objInv o := by
  unfold Compiler.compile_statement at h
  cases hst : s.statement_type <;> rw [hst] at h
  case COMMENT | MTLLIB | USEMTL | ILLUM =>
    injection h with h
    cases h
    exact ⟨hc, by simp⟩
  case VERTEX =>
    obtain ⟨cv, hcv, h⟩ := except_bind_ok _ _ _ h
    obtain ⟨t, _, rfl⟩ := handle_vertex_ok c s cv hcv
    injection h with h
    cases h
    exact ⟨fun o ho => hc o ho, by simp⟩
  case NORMAL =>
    obtain ⟨cv, hcv, h⟩ := except_bind_ok _ _ _ h
    obtain ⟨t, _, rfl⟩ := handle_normal_ok c s cv hcv
    injection h with h
    cases h
    exact ⟨fun o ho => hc o ho, by simp⟩
  case TEXCOORD =>
    obtain ⟨cv, hcv, h⟩ := except_bind_ok _ _ _ h
    obtain ⟨t, _, rfl⟩ := handle_tex_coord_ok c s cv hcv
    injection h with h
    cases h
    exact ⟨fun o ho => hc o ho, by simp⟩
  case OBJECT =>
    obtain ⟨x, hd, rfl, rfl⟩ := handle_object_ok c s c2 objs h
    constructor
    · intro o ho
      simp at ho
      rw [← ho]
      exact objInv_from x
    · intro o ho
      cases hcur : c.cur_obj with
      | none => rw [hcur] at ho; simp at ho
      | some oc =>
        rw [hcur] at ho
        simp at ho
        rw [ho]
        exact hc oc hcur
  case FACE =>
    obtain ⟨cv, hcv, h⟩ := except_bind_ok _ _ _ h
    obtain ⟨fi, o2, ho2, rfl⟩ := handle_face_ok c s cv hcv
    injection h with h
    cases h
    have hbase : objInv (c.cur_obj.getD (Object3d.from c.default_name)) := by
      cases hcur : c.cur_obj with
      | none => simp [hcur, objInv_from]
      | some oc => simpa [hcur] using hc oc hcur
    constructor
    · intro o ho
      simp at ho
      rw [← ho]
      exact add_face_vertices_inv _ _ _ _ _ _ hbase ho2
    · simp

/-- The statement loop preserves the state invariant and emits only
well-formed objects. -/
theorem compileAux_inv (ss : List Statement) (c : Compiler) (c2 : Compiler)
    (objs : List Object3d) (hc : cinv c)
    (h : Compiler.compileAux c ss = Except.ok (c2, objs)) :
    cinv c2 ∧ ∀ o ∈ objs, objInv o := by
  induction ss generalizing c objs with
  | nil =>
    unfold Compiler.compileAux at h
    injection h with h
    cases h
    exact ⟨hc, by simp⟩
  | cons s rest ih =>
    unfold Compiler.compileAux at h
    obtain ⟨⟨cm, objs1⟩, h1, h⟩ := except_bind_ok _ _ _ h
    obtain ⟨⟨cf, objs2⟩, h2, h⟩ := except_bind_ok _ _ _ h
    injection h with h
    cases h
    obtain ⟨hcm, hobjs1⟩ := compile_statement_inv c s cm objs1 hc h1
    obtain ⟨hcf, hobjs2⟩ := ih cm objs2 hcm h2
    refine ⟨hcf, ?_⟩
    intro o ho
    rcases List.mem_append.mp ho with ho | ho
    · exact hobjs1 o ho
    · exact hobjs2 o ho

theorem compileAux_nil (c : Compiler) : Compiler.compileAux c [] = Except.ok (c, []) := rfl

theorem compileAux_cons (c : Compiler) (s : Statement) (l : List Statement) :
    Compiler.compileAux c (s :: l) = (do
      let (c2, objs) ← Compiler.compile_statement c s
      let (cf, objs2) ← Compiler.compileAux c2 l
      Except.ok (cf, objs ++ objs2)) := rfl

/-- Composing two successful runs of the statement loop over an append. -/
theorem compileAux_append_ok (xs ys : List Statement) (c c1 c2 : Compiler)
    (os1 os2 : List Object3d)
    (h : Compiler.compileAux c xs = Except.ok (c1, os1))
    (h2 : Compiler.compileAux c1 ys = Except.ok (c2, os2)) :
    Compiler.compileAux c (xs ++ ys) = Except.ok (c2, os1 ++ os2) := by
  induction xs generalizing c c1 os1 with
  | nil =>
    rw [compileAux_nil] at h
    injection h with h
    cases h
    simpa using h2
  | cons s rest ih =>
    rw [compileAux_cons] at h
    obtain ⟨⟨cm, o1⟩, h1, h⟩ := except_bind_ok _ _ _ h
    obtain ⟨⟨cf, o2⟩, hrest, h⟩ := except_bind_ok _ _ _ h
    injection h with h
    cases h
    have hih := ih cm _ o2 hrest h2
    show Compiler.compileAux c (s :: (rest ++ ys)) = _
    rw [compileAux_cons, h1]
    simp only [Bind.bind, Except.bind, hih]
    simp

/-- An error in the second half of an appended run propagates. -/
theorem compileAux_append_error (xs ys : List Statement) (c c1 : Compiler)
    (os1 : List Object3d) (e : ErrString)
    (h : Compiler.compileAux c xs = Except.ok (c1, os1))
    (h2 : Compiler.compileAux c1 ys = Except.error e) :
    Compiler.compileAux c (xs ++ ys) = Except.error e := by
  induction xs generalizing c c1 os1 with
  | nil =>
    rw [compileAux_nil] at h
    injection h with h
    cases h
    simpa using h2
  | cons s rest ih =>
    rw [compileAux_cons] at h
    obtain ⟨⟨cm, o1⟩, h1, h⟩ := except_bind_ok _ _ _ h
    obtain ⟨⟨cf, o2⟩, hrest, h⟩ := except_bind_ok _ _ _ h
    injection h with h
    cases h
    have hih := ih cm _ o2 hrest h2
    show Compiler.compileAux c (s :: (rest ++ ys)) = _
    rw [compileAux_cons, h1]
    simp only [Bind.bind, Except.bind, hih]

/-- Splitting a successful run of the statement loop at an append point. -/
theorem compileAux_append_inv (xs ys : List Statement) (c c2 : Compiler)
    (os : List Object3d)
    (h : Compiler.compileAux c (xs ++ ys) = Except.ok (c2, os)) :
    ∃ c1 os1 os2, Compiler.compileAux c xs = Except.ok (c1, os1) ∧
      Compiler.compileAux c1 ys = Except.ok (c2, os2) ∧ os = os1 ++ os2 := by
  induction xs generalizing c os with
  | nil =>
    exact ⟨c, [], os, rfl, by simpa using h, by simp⟩
  | cons s rest ih =>
    rw [show (s :: rest) ++ ys = s :: (rest ++ ys) from rfl, compileAux_cons] at h
    obtain ⟨⟨cm, o1⟩, h1, h⟩ := except_bind_ok _ _ _ h
    obtain ⟨⟨cf, o2⟩, hrest, h⟩ := except_bind_ok _ _ _ h
    injection h with h
    cases h
    obtain ⟨c1, os1, os2, ha, hb, hc⟩ := ih cm o2 hrest
    refine ⟨c1, o1 ++ os1, os2, ?_, hb, by simp [hc]⟩
    rw [compileAux_cons, h1]
    simp only [Bind.bind, Except.bind, ha]

theorem parse_tokens_cons (p : Parser) (t : Token) (ts : List Token) :
    Parser.parse_tokens p (t :: ts) = (do
      let (p2, so) ← Parser.parse_token p t
      let rest ← Parser.parse_tokens p2 ts
      Except.ok (so.toList ++ rest)) := rfl

theorem parse_tokens_aux_cons (p : Parser) (t : Token) (ts : List Token) :
    Parser.parse_tokens_aux p (t :: ts) = (do
      let (p2, so) ← Parser.parse_token p t
      let (pf, rest) ← Parser.parse_tokens_aux p2 ts
      Except.ok (pf, so.toList ++ rest)) := rfl

/-- `parse_tokens` is `parse_tokens_aux` with the final state dropped. -/
theorem parse_tokens_eq_aux (p : Parser) (ts : List Token) :
    Parser.parse_tokens p ts = (Parser.parse_tokens_aux p ts).map Prod.snd := by
  induction ts generalizing p with
  | nil => rfl
  | cons t ts ih =>
    rw [parse_tokens_cons, parse_tokens_aux_cons]
    cases h : Parser.parse_token p t with
    | error e => simp [Bind.bind, Except.bind, Except.map]
    | ok r =>
      obtain ⟨p2, so⟩ := r
      simp only [Bind.bind, Except.bind]
      rw [ih p2]
      cases h2 : Parser.parse_tokens_aux p2 ts with
      | error e => simp [Except.map]
      | ok r2 =>
        obtain ⟨pf, rest⟩ := r2
        simp [Except.map]

theorem is_expected_token_eq (p : Parser) (t : Token) (e : TokenType)
    (h : p.is_expected_token t e = true) : t.token_type = e := by
  simp [Parser.is_expected_token] at h
  exact h.2

/-- The parser emits a statement only while consuming a LINEBREAK token. -/
theorem parse_token_emit_linebreak (p : Parser) (t : Token) (p2 : Parser) (s : Statement)
    (h : Parser.parse_token p t = Except.ok (p2, some s)) :
    t.token_type = TokenType.LINEBREAK := by
  unfold Parser.parse_token at h
  cases hst : p.statement_type <;> rw [hst] at h
  case none =>
    obtain ⟨p3, _, h⟩ := except_bind_ok _ _ _ h
    injection h with h
    exact absurd (congrArg Prod.snd h) (by simp)
  case some k =>
    unfold Parser.handle_token at h
    rw [hst] at h
    dsimp only at h
    by_cases hl : t.token_type = TokenType.LINEBREAK
    · exact hl
    · exfalso
      cases k <;> dsimp only at h
      · unfold Parser.parse_comment_statement at h
        split_ifs at h
      · unfold Parser.parse_single_string_statement at h
        split_ifs at h <;> simp_all
      · unfold Parser.parse_single_string_statement at h
        split_ifs at h <;> simp_all
      · unfold Parser.parse_number_statement at h
        split_ifs at h <;> cases hd : t.data <;> (try simp only [hd] at h) <;> simp_all
      · unfold Parser.parse_number_statement at h
        split_ifs at h <;> cases hd : t.data <;> (try simp only [hd] at h) <;> simp_all
      · unfold Parser.parse_number_statement at h
        split_ifs at h <;> cases hd : t.data <;> (try simp only [hd] at h) <;> simp_all
      · unfold Parser.parse_single_string_statement at h
        split_ifs at h <;> simp_all
      · unfold Parser.parse_face_statement at h
        split_ifs at h <;> cases hd : t.data <;> (try simp only [hd] at h) <;> simp_all [Parser.is_expected_token]
      · unfold Parser.parse_number_statement at h
        split_ifs at h <;> cases hd : t.data <;> (try simp only [hd] at h) <;> simp_all

/-- A run of statements containing no FACE and no OBJECT statement emits
nothing and leaves the current object untouched. -/
theorem compileAux_no_face_object (tail : List Statement) (c cf : Compiler)
    (os : List Object3d)
    (htail : ∀ s ∈ tail, s.statement_type ≠ StatementType.FACE ∧
      s.statement_type ≠ StatementType.OBJECT)
    (h : Compiler.compileAux c tail = Except.ok (cf, os)) :
    os = [] ∧ cf.cur_obj = c.cur_obj := by
  induction tail generalizing c os with
  | nil =>
    rw [compileAux_nil] at h
    injection h with h
    cases h
    exact ⟨rfl, rfl⟩
  | cons s rest ih =>
    rw [compileAux_cons] at h
    obtain ⟨⟨cm, o1⟩, h1, h⟩ := except_bind_ok _ _ _ h
    obtain ⟨⟨cf2, o2⟩, hrest, h⟩ := except_bind_ok _ _ _ h
    injection h with h
    cases h
    obtain ⟨hsf, hso⟩ := htail s (by simp)
    have hstep : o1 = [] ∧ cm.cur_obj = c.cur_obj := by
      unfold Compiler.compile_statement at h1
      cases hst : s.statement_type <;> rw [hst] at h1
      case COMMENT | MTLLIB | USEMTL | ILLUM =>
        injection h1 with h1
        cases h1
        exact ⟨rfl, rfl⟩
      case VERTEX =>
        obtain ⟨cv, hcv, h1⟩ := except_bind_ok _ _ _ h1
        obtain ⟨t, _, rfl⟩ := handle_vertex_ok c s cv hcv
        injection h1 with h1
        cases h1
        exact ⟨rfl, rfl⟩
      case NORMAL =>
        obtain ⟨cv, hcv, h1⟩ := except_bind_ok _ _ _ h1
        obtain ⟨t, _, rfl⟩ := handle_normal_ok c s cv hcv
        injection h1 with h1
        cases h1
        exact ⟨rfl, rfl⟩
      case TEXCOORD =>
        obtain ⟨cv, hcv, h1⟩ := except_bind_ok _ _ _ h1
        obtain ⟨t, _, rfl⟩ := handle_tex_coord_ok c s cv hcv
        injection h1 with h1
        cases h1
        exact ⟨rfl, rfl⟩
      case OBJECT => exact absurd hst hso
      case FACE => exact absurd hst hsf
    obtain ⟨ho1, hcur1⟩ := hstep
    obtain ⟨ho2, hcur2⟩ := ih cm o2 (fun s2 hs2 => htail s2 (by simp [hs2])) hrest
    exact ⟨by simp [ho1, ho2], hcur2.trans hcur1⟩

/-! ## Claim theorems -/

/-- Claim C1: lexing, parsing and compiling the text
`"v -1 0 -1\nv 0 0 1\nv 1 0 1\nf 1/0/0 2/0/0 3/0/0\n"` with default
object name `"test.obj"` succeeds and yields exactly one `Object3d` named
`"test.obj"` with format `VertexP` (position-only), vertex buffer
`[(-1,0,-1),(0,0,1),(1,0,1)]` in order, and index buffer `[0,1,2]`. -/
theorem c1_scenario_a_pipeline :
    compile_wfo_source "test.obj" "v -1 0 -1\nv 0 0 1\nv 1 0 1\nf 1/0/0 2/0/0 3/0/0\n" =
      Except.ok [{
        name := "test.obj",
        format := VertexFormat.VertexP,
        vertex_buffer := [
          VertexData.vertex_p_from_floats (Float.finite (-1)) (Float.finite 0) (Float.finite (-1)),
          VertexData.vertex_p_from_floats (Float.finite 0) (Float.finite 0) (Float.finite 1),
          VertexData.vertex_p_from_floats (Float.finite 1) (Float.finite 0) (Float.finite 1)],
        index_buffer := [0, 1, 2] }] := by
  decide

/-- Claim C7: a character run whose float parse yields NaN is never
classified as a NUMBER token; it falls through to the polygon/string
rules. (The NUMBER payload type itself excludes NaN, mirroring
`NotNan<f64>`.) -/
theorem c7_nan_never_number (s : String) (line pos : Nat)
    (h : parseF64 s = some F64.nan) :
    (classify_run s line pos).token_type ≠ TokenType.NUMBER := by
  unfold classify_run
  cases hfs : TokenType.from_str s with
  | some tt =>
    have hh : tt.is_statement_header = true := from_str_header s tt hfs
    intro hc
    have hc2 : tt = TokenType.NUMBER := hc
    rw [hc2] at hh
    simp [TokenType.is_statement_header] at hh
  | none =>
    rw [h]
    simp only [Float.new]
    rcases classify_run_2_type s line pos with h2 | h2 <;> simp [h2]

/-- Witness for C7 at the concrete run `"NaN"`. -/
theorem c7_nan_never_number_witness :
    parseF64 "NaN" = some F64.nan ∧
      (classify_run "NaN" 1 1).token_type ≠ TokenType.NUMBER :=
  ⟨by decide, c7_nan_never_number "NaN" 1 1 (by decide)⟩

/-- Counterexample to claim C10 as stated: on the index triple `(1, 2, 0)`
(non-zero first component) the two `from_indices` definitions disagree —
src/vertex.rs returns `VertexPT` while src/vertex_format.rs returns
`VertexPN`. -/
theorem c10_from_indices_cex :
    VertexFormat.from_indices (1, 2, 0) = Except.ok VertexFormat.VertexPT ∧
    VertexFormatDup.from_indices (1, 2, 0) = Except.ok VertexFormat.VertexPN ∧
    VertexFormat.from_indices (1, 2, 0) ≠ VertexFormatDup.from_indices (1, 2, 0) := by
  decide

/-- Claim C10 (amended): the two `from_indices` definitions are equivalent
only up to transposing the last two components: they always agree after
swapping those components, and on a triple with non-zero first component
they return the same format iff its second and third components are both
zero or both non-zero. -/
theorem c10_from_indices_transposed :
    (∀ p a b : Nat, VertexFormat.from_indices (p, a, b) = VertexFormatDup.from_indices (p, b, a)) ∧
    (∀ p a b : Nat, p ≠ 0 →
      (VertexFormat.from_indices (p, a, b) = VertexFormatDup.from_indices (p, a, b) ↔
        (a = 0 ↔ b = 0))) := by
  constructor
  · intro p a b
    unfold VertexFormat.from_indices VertexFormatDup.from_indices
    rcases p with _ | p <;> rcases a with _ | a <;> rcases b with _ | b <;> simp
  · intro p a b hp
    unfold VertexFormat.from_indices VertexFormatDup.from_indices
    rcases p with _ | p
    · exact absurd rfl hp
    rcases a with _ | a <;> rcases b with _ | b <;> simp

/-- For a non-zero `u64` index, the wrapping `as usize - 1` is plain
subtraction. -/
theorem usize_sub1_eq (p : Nat) (h0 : p ≠ 0) (hlt : p < 2 ^ 64) :
    usize_sub1 p = p - 1 := by
  unfold usize_sub1
  omega

/-- A triple with non-zero position component yields a `VertexDataIndex`
with a concrete (non-Unknown) format and that position. -/
theorem vdi_from_indices_pos (p a b : Nat) (hp : p ≠ 0) :
    ∃ idx, VertexDataIndex.from_indices (p, a, b) = Except.ok idx ∧
      idx.format ≠ VertexFormat.Unknown ∧ idx.pos = p := by
  unfold VertexDataIndex.from_indices VertexFormat.from_indices
  simp only [Bind.bind, Except.bind]
  split_ifs with h1 h2 h3 h4
  · exact absurd h1 hp
  · exact ⟨_, rfl, by simp, rfl⟩
  · exact ⟨_, rfl, by simp, rfl⟩
  · exact ⟨_, rfl, by simp, rfl⟩
  · exact ⟨_, rfl, by simp, rfl⟩

/-- Whatever the (concrete) format, `VertexData::compile` checks the
position lookup first and fails with the index-out-of-range error when it
misses. -/
theorem vcompile_pos_out (idx : VertexDataIndex)
    (pb nb : List (Float × Float × Float)) (tb : List (Float × Float))
    (hf : idx.format ≠ VertexFormat.Unknown)
    (hget : pb.get? (usize_sub1 idx.pos) = none) :
    VertexData.compile idx pb nb tb = Except.error "Bad position index" := by
  unfold VertexData.compile
  cases hfmt : idx.format
  case Unknown => exact absurd hfmt hf
  case VertexP => unfold VertexData.compile_vertex_p; rw [hget]
  case VertexPN => unfold VertexData.compile_vertex_pn; rw [hget]
  case VertexPT => unfold VertexData.compile_vertex_pt; rw [hget]
  case VertexPNT => unfold VertexData.compile_vertex_pnt; rw [hget]

/-- Claim C4: a face statement referencing a position index beyond the
current position accumulation buffer makes the whole compilation fail
with the index-out-of-range error (surfaced through the
`expect` panic in `handle_face_statement`), so no object list is
returned. -/
theorem c4_face_index_out_of_range (dflt : String) (ss : List Statement)
    (st : Compiler) (objs : List Object3d)
    (p1 t1 n1 p2 t2 n2 p3 t3 n3 ln col : Nat)
    (hrun : Compiler.compileAux (Compiler.from_default_name dflt) ss = Except.ok (st, objs))
    (hp1 : p1 ≠ 0) (hp1lt : p1 < 2 ^ 64) (hgt : st.position_buffer.length < p1)
    (hp2 : p2 ≠ 0) (hp3 : p3 ≠ 0) :
    (Compiler.from_default_name dflt).compile
        (ss ++ [Statement.mk StatementType.FACE
          (StatementDataType.FacePTN p1 t1 n1 p2 t2 n2 p3 t3 n3) ln col]) =
      Except.error "panic: Expected vertex compilation: Bad position index" := by
  obtain ⟨i1, hi1, hf1, hpos1⟩ := vdi_from_indices_pos p1 t1 n1 hp1
  obtain ⟨i2, hi2, _, _⟩ := vdi_from_indices_pos p2 t2 n2 hp2
  obtain ⟨i3, hi3, _, _⟩ := vdi_from_indices_pos p3 t3 n3 hp3
  have hface : (StatementDataType.FacePTN p1 t1 n1 p2 t2 n2 p3 t3 n3).face_as_index_tuples =
      Except.ok (some [i1, i2, i3]) := by
    unfold StatementDataType.face_as_index_tuples
    simp [Bind.bind, Except.bind, hi1, hi2, hi3]
  have hget : st.position_buffer.get? (usize_sub1 i1.pos) = none := by
    rw [hpos1, usize_sub1_eq p1 hp1 hp1lt, List.get?_eq_none]
    omega
  have hvc := vcompile_pos_out i1 st.position_buffer st.normal_buffer st.tex_coord_buffer hf1 hget
  have hfs : Compiler.handle_face_statement st
      (Statement.mk StatementType.FACE
        (StatementDataType.FacePTN p1 t1 n1 p2 t2 n2 p3 t3 n3) ln col) =
      Except.error "panic: Expected vertex compilation: Bad position index" := by
    unfold Compiler.handle_face_statement
    simp [Bind.bind, Except.bind, hface, expect_option, Compiler.add_face_vertices,
          expect_result, hvc]
  have hstep : Compiler.compileAux st
      [Statement.mk StatementType.FACE
        (StatementDataType.FacePTN p1 t1 n1 p2 t2 n2 p3 t3 n3) ln col] =
      Except.error "panic: Expected vertex compilation: Bad position index" := by
    rw [compileAux_cons]
    simp [Compiler.compile_statement, hfs, Bind.bind, Except.bind]
  have hall := compileAux_append_error ss _ _ st objs _ hrun hstep
  unfold Compiler.compile
  simp [Bind.bind, Except.bind, hall]

/-- Witness for C4: three declared vertices, a face referencing position
index 5. -/
theorem c4_face_index_out_of_range_witness :
    (Compiler.from_default_name "test.obj").compile
        ([Statement.mk StatementType.VERTEX
            (StatementDataType.Number3D (Float.finite 1) (Float.finite 0) (Float.finite 0)) 1 1,
          Statement.mk StatementType.VERTEX
            (StatementDataType.Number3D (Float.finite 0) (Float.finite 1) (Float.finite 0)) 2 1,
          Statement.mk StatementType.VERTEX
            (StatementDataType.Number3D (Float.finite 0) (Float.finite 0) (Float.finite 1)) 3 1] ++
         [Statement.mk StatementType.FACE
            (StatementDataType.FacePTN 5 0 0 1 0 0 2 0 0) 4 1]) =
      Except.error "panic: Expected vertex compilation: Bad position index" :=
  c4_face_index_out_of_range "test.obj"
    [Statement.mk StatementType.VERTEX
        (StatementDataType.Number3D (Float.finite 1) (Float.finite 0) (Float.finite 0)) 1 1,
      Statement.mk StatementType.VERTEX
        (StatementDataType.Number3D (Float.finite 0) (Float.finite 1) (Float.finite 0)) 2 1,
      Statement.mk StatementType.VERTEX
        (StatementDataType.Number3D (Float.finite 0) (Float.finite 0) (Float.finite 1)) 3 1]
    (Compiler.mk "test.obj" none
      [(Float.finite 1, Float.finite 0, Float.finite 0),
       (Float.finite 0, Float.finite 1, Float.finite 0),
       (Float.finite 0, Float.finite 0, Float.finite 1)] [] [])
    [] 5 0 0 1 0 0 2 0 0 4 1
    (by decide) (by decide) (by decide) (by decide) (by decide) (by decide)

/-- Claim C2: in every successful compilation, every object in the output
list has a uniform vertex buffer (each element's format equals the
object's format field), and every index-buffer entry is strictly below
the vertex-buffer length. -/
theorem c2_compile_invariants (dflt : String) (stmts : List Statement)
    (objs : List Object3d)
    (h : (Compiler.from_default_name dflt).compile stmts = Except.ok objs) :
    ∀ o ∈ objs, (∀ v ∈ o.vertex_buffer, v.format = o.format) ∧
      (∀ i ∈ o.index_buffer, i < o.vertex_buffer.length) := by
  unfold Compiler.compile at h
  obtain ⟨⟨c2, os⟩, haux, h⟩ := except_bind_ok _ _ _ h
  simp only [Compiler.clean_up] at h
  injection h with h
  have hstart : cinv (Compiler.from_default_name dflt) := by
    intro o ho
    simp [Compiler.from_default_name] at ho
  obtain ⟨hc2, hos⟩ := compileAux_inv stmts _ _ _ hstart haux
  intro o ho
  rw [← h] at ho
  have hoinv : objInv o := by
    rcases List.mem_append.mp ho with ho | ho
    · exact hos o ho
    · cases hcur : c2.cur_obj with
      | none => rw [hcur] at ho; simp at ho
      | some oc =>
        rw [hcur] at ho
        simp at ho
        rw [ho]
        exact hc2 oc hcur
  exact ⟨hoinv.1, hoinv.2.1⟩

/-- Witness for C2 on a small successful compilation (one vertex, one
face reusing it three times), instantiated at the single output object. -/
theorem c2_compile_invariants_witness :
    (∀ v ∈ (Object3d.mk "w" VertexFormat.VertexP
        [VertexData.vertex_p_from_floats (Float.finite 0) (Float.finite 0) (Float.finite 0)]
        [0, 0, 0]).vertex_buffer,
      v.format = (Object3d.mk "w" VertexFormat.VertexP
        [VertexData.vertex_p_from_floats (Float.finite 0) (Float.finite 0) (Float.finite 0)]
        [0, 0, 0]).format) ∧
    (∀ i ∈ (Object3d.mk "w" VertexFormat.VertexP
        [VertexData.vertex_p_from_floats (Float.finite 0) (Float.finite 0) (Float.finite 0)]
        [0, 0, 0]).index_buffer,
      i < (Object3d.mk "w" VertexFormat.VertexP
        [VertexData.vertex_p_from_floats (Float.finite 0) (Float.finite 0) (Float.finite 0)]
        [0, 0, 0]).vertex_buffer.length) :=
  c2_compile_invariants "w"
    [Statement.mk StatementType.VERTEX
      (StatementDataType.Number3D (Float.finite 0) (Float.finite 0) (Float.finite 0)) 1 1,
     Statement.mk StatementType.FACE (StatementDataType.FacePTN 1 0 0 1 0 0 1 0 0) 2 1]
    [Object3d.mk "w" VertexFormat.VertexP
      [VertexData.vertex_p_from_floats (Float.finite 0) (Float.finite 0) (Float.finite 0)]
      [0, 0, 0]]
    (by decide)
    (Object3d.mk "w" VertexFormat.VertexP
      [VertexData.vertex_p_from_floats (Float.finite 0) (Float.finite 0) (Float.finite 0)]
      [0, 0, 0])
    (by decide)

/-- Claim C3: adding the same VertexData value twice in succession to a
fresh Object3d succeeds both times and leaves one vertex and index buffer
`[0, 0]`; in general (under a compatible format), a candidate structurally
equal to an existing vertex at scan position `i` appends `i` to the index
buffer without growing the vertex buffer, and a never-seen candidate is
appended to the vertex buffer together with its new last position in the
index buffer. -/
theorem c3_add_vertex_dedup :
    (∀ (name : String) (v : VertexData), ∃ o1 o2,
      (Object3d.from name).add_vertex v = Except.ok o1 ∧
      o1.add_vertex v = Except.ok o2 ∧
      o2.vertex_buffer.length = 1 ∧ o2.index_buffer = [0, 0]) ∧
    (∀ (o : Object3d) (v : VertexData) (i : Nat),
      o.format = VertexFormat.Unknown ∨ o.format = v.format →
      find_index o.vertex_buffer v = some i →
      ∃ o2, o.add_vertex v = Except.ok o2 ∧
        o2.vertex_buffer = o.vertex_buffer ∧ o2.index_buffer = o.index_buffer ++ [i]) ∧
    (∀ (o : Object3d) (v : VertexData),
      o.format = VertexFormat.Unknown ∨ o.format = v.format →
      v ∉ o.vertex_buffer →
      ∃ o2, o.add_vertex v = Except.ok o2 ∧
        o2.vertex_buffer = o.vertex_buffer ++ [v] ∧
        o2.index_buffer = o.index_buffer ++ [o.vertex_buffer.length]) := by
  refine ⟨?_, ?_, ?_⟩
  · intro name v
    have e1 : add_vertex_result (Object3d.from name) v =
        { name := name, format := v.format, vertex_buffer := [v], index_buffer := [0] } := by
      simp [add_vertex_result, Object3d.from, find_index]
    have h1 := add_vertex_ok (Object3d.from name) v (Or.inl rfl)
    rw [e1] at h1
    have h2 := add_vertex_ok
      { name := name, format := v.format, vertex_buffer := [v], index_buffer := [0] } v
      (Or.inr rfl)
    have e2 : add_vertex_result
        { name := name, format := v.format, vertex_buffer := [v], index_buffer := [0] } v =
        { name := name, format := v.format, vertex_buffer := [v], index_buffer := [0, 0] } := by
      simp [add_vertex_result, find_index]
    rw [e2] at h2
    exact ⟨_, _, h1, h2, by simp, rfl⟩
  · intro o v i h hf
    refine ⟨add_vertex_result o v, add_vertex_ok o v h, ?_, ?_⟩ <;>
      simp [add_vertex_result, hf]
  · intro o v h hnm
    have hf : find_index o.vertex_buffer v = none := find_index_not_mem _ _ hnm
    refine ⟨add_vertex_result o v, add_vertex_ok o v h, ?_, ?_⟩ <;>
      simp [add_vertex_result, hf]

/-- Witness for C3: reusing slot 0 of a one-vertex object. -/
theorem c3_add_vertex_dedup_witness :
    ∃ o2,
      (Object3d.mk "t" VertexFormat.VertexP
        [VertexData.vertex_p_from_floats (Float.finite 0) (Float.finite 0) (Float.finite 0)]
        []).add_vertex
        (VertexData.vertex_p_from_floats (Float.finite 0) (Float.finite 0) (Float.finite 0)) =
        Except.ok o2 ∧
      o2.vertex_buffer =
        [VertexData.vertex_p_from_floats (Float.finite 0) (Float.finite 0) (Float.finite 0)] ∧
      o2.index_buffer = [0] :=
  c3_add_vertex_dedup.2.1 _ _ 0 (Or.inr rfl) (by decide)

/-- Counterexample to claim C5 as stated: the run `"comment"` is not one
of the eight listed words, yet the lexer classifies it as a
statement-header keyword token (COMMENT), not a STRING token — the
keyword table has a ninth entry. -/
theorem c5_keyword_table_cex :
    (classify_run "comment" 1 1).token_type = TokenType.COMMENT ∧
    (classify_run "comment" 1 1).token_type ≠ TokenType.STRING ∧
    "comment" ∉ ["mtllib", "o", "v", "vn", "vt", "usemtl", "f", "s"] := by
  decide

/-- Claim C5 (amended): a flushed character run (not a comment, line
break, or separator) is classified as a statement-header keyword token iff
it exactly matches one of the NINE words comment, mtllib, o, v, vn, vt,
usemtl, f, s; any other run that also fails the number and polygon rules
becomes a STRING token carrying the raw text. -/
theorem c5_keyword_table_amended (s : String) (line pos : Nat) :
    ((classify_run s line pos).token_type.is_statement_header = true ↔
      s ∈ ["comment", "mtllib", "o", "v", "vn", "vt", "usemtl", "f", "s"]) ∧
    (s ∉ ["comment", "mtllib", "o", "v", "vn", "vt", "usemtl", "f", "s"] →
      (∀ f, parseF64 s = some f → Float.new f = Except.error ()) →
      lex_polygon s.toList = none →
      classify_run s line pos =
        { token_type := TokenType.STRING, data := TokenDataType.String s,
          line_number := line, line_position := pos }) := by
  constructor
  · constructor
    · intro hh
      rw [← from_str_isSome_iff]
      cases hq : TokenType.from_str s with
      | some tt => rfl
      | none =>
        exfalso
        rcases classify_run_not_keyword s line pos hq with h | h | h <;>
          (rw [h] at hh; simp [TokenType.is_statement_header] at hh)
    · intro hmem
      have hsome : (TokenType.from_str s).isSome = true := (from_str_isSome_iff s).mpr hmem
      cases hq : TokenType.from_str s with
      | none => rw [hq] at hsome; simp at hsome
      | some tt =>
        rw [classify_run_keyword s line pos tt hq]
        exact from_str_header s tt hq
  · intro hmem hnum hpoly
    have hnone : TokenType.from_str s = none := by
      cases hq : TokenType.from_str s with
      | none => rfl
      | some tt =>
        exfalso
        refine hmem ((from_str_isSome_iff s).mp ?_)
        rw [hq]
        rfl
    have hpoly2 : lex_polygon s.data = none := hpoly
    cases hp : parseF64 s with
    | none => simp [classify_run, classify_run_2, hnone, hp, hpoly2]
    | some f => simp [classify_run, classify_run_2, hnone, hp, hnum f hp, hpoly2]

/-- Witness for C5 (amended) at the concrete run `"asdf"`. -/
theorem c5_keyword_table_amended_witness :
    classify_run "asdf" 1 1 =
      { token_type := TokenType.STRING, data := TokenDataType.String "asdf",
        line_number := 1, line_position := 1 } :=
  (c5_keyword_table_amended "asdf" 1 1).2 (by decide)
    (fun f hf => by
      rw [show parseF64 "asdf" = none from by decide] at hf
      exact Option.noConfusion hf)
    (by decide)

/-- Counterexample to claim C6 as stated: lexing the two-character input
`"\r\n"` emits TWO LINEBREAK tokens, not one — the lexer folds a `'\r'`
that follows a `'\n'`, not the other way around. -/
theorem c6_line_break_cex :
    Lexer.new.lex_tokens ("\r\n".toList) =
      [{ token_type := TokenType.LINEBREAK, data := TokenDataType.String "\r",
         line_number := 1, line_position := 1 },
       { token_type := TokenType.LINEBREAK, data := TokenDataType.String "\n",
         line_number := 2, line_position := 1 }] ∧
    (Lexer.new.lex_tokens ("\r\n".toList)).length ≠ 1 := by
  decide

/-- Claim C6 (amended): a line-ending character always forces the lexer
into the LineBreak state, and a `'\r'` immediately following a lone
`'\n'` is folded into the same LINEBREAK token; `"\n"`, `"\r"` and
`"\n\r"` each lex to exactly one LINEBREAK token, while `"\r\n"` lexes to
two LINEBREAK tokens. -/
theorem c6_line_break_amended :
    (∀ (l : Lexer) (c : Char), (c = '\n' ∨ c = '\r') →
      ((l.lexStep c).1).state = LexerState.LineBreak) ∧
    (Lexer.new.lex_tokens ("\n".toList)).map Token.token_type = [TokenType.LINEBREAK] ∧
    (Lexer.new.lex_tokens ("\r".toList)).map Token.token_type = [TokenType.LINEBREAK] ∧
    (Lexer.new.lex_tokens ("\n\r".toList)).map Token.token_type = [TokenType.LINEBREAK] ∧
    (Lexer.new.lex_tokens ("\r\n".toList)).map Token.token_type =
      [TokenType.LINEBREAK, TokenType.LINEBREAK] := by
  refine ⟨?_, by decide, by decide, by decide, by decide⟩
  intro l c hc
  rcases check_line_ending l c hc with h | ⟨h, hst⟩
  · simp [Lexer.lexStep, h, Lexer.save_char]
  · simp [Lexer.lexStep, h, Lexer.save_char, hst]

/-- Witness for C6 (amended): the line-ending `'\n'` from the fresh lexer
state lands in the LineBreak state. -/
theorem c6_line_break_amended_witness :
    ((Lexer.new.lexStep '\n').1).state = LexerState.LineBreak :=
  c6_line_break_amended.1 Lexer.new '\n' (Or.inl rfl)

/-- Claim C8: a token stream that ends while a statement is still in
progress parses successfully, and the unterminated final statement is
silently discarded: the parser emits a statement only on a LINEBREAK
token, and the returned list is exactly what was emitted, with no
end-of-input completeness check. -/
theorem c8_unterminated_statement_dropped :
    (∀ (ts : List Token) (st : Parser) (stmts : List Statement),
      Parser.parse_tokens_aux Parser.new ts = Except.ok (st, stmts) →
      st.statement_type ≠ none →
      Parser.parse_tokens Parser.new ts = Except.ok stmts) ∧
    (∀ (p : Parser) (t : Token) (p2 : Parser) (s : Statement),
      Parser.parse_token p t = Except.ok (p2, some s) →
      t.token_type = TokenType.LINEBREAK) := by
  constructor
  · intro ts st stmts h _
    rw [parse_tokens_eq_aux, h]
    rfl
  · intro p t p2 s h
    exact parse_token_emit_linebreak p t p2 s h

/-- Witness for C8: `o A` with no closing line break parses to an empty
statement list while the parser state still holds the open statement. -/
theorem c8_unterminated_statement_dropped_witness :
    Parser.parse_tokens Parser.new
      [Token.mk TokenType.OBJECT TokenDataType.None 1 1,
       Token.mk TokenType.SEPARATOR TokenDataType.None 1 2,
       Token.mk TokenType.STRING (TokenDataType.String "A") 1 3] =
      Except.ok [] :=
  c8_unterminated_statement_dropped.1
    [Token.mk TokenType.OBJECT TokenDataType.None 1 1,
     Token.mk TokenType.SEPARATOR TokenDataType.None 1 2,
     Token.mk TokenType.STRING (TokenDataType.String "A") 1 3]
    { statement_type := some StatementType.OBJECT,
      statement_data := StatementDataType.String "A",
      statement_line_number := 1, statement_line_position := 1,
      data_buffer := [], index_buffer := [], parsed_token_count := 3,
      next_expected_token := TokenType.LINEBREAK }
    [] (by decide) (by decide)

/-- Claim C9: an OBJECT statement followed by no FACE statement before the
next OBJECT statement or the end of input still produces an Object3d — the
last object of the output list is then exactly the fresh object named by
the statement, with format Unknown and empty vertex and index buffers
(a format outside the four concrete formats of the output contract). -/
theorem c9_empty_object_emitted (dflt name : String) (ln col : Nat)
    (ss tail : List Statement) (objs : List Object3d)
    (htail : ∀ s ∈ tail, s.statement_type ≠ StatementType.FACE ∧
      s.statement_type ≠ StatementType.OBJECT)
    (h : (Compiler.from_default_name dflt).compile
        (ss ++ Statement.mk StatementType.OBJECT (StatementDataType.String name) ln col
          :: tail) = Except.ok objs) :
    objs.getLast? = some
      { name := name, format := VertexFormat.Unknown,
        vertex_buffer := [], index_buffer := [] } := by
  unfold Compiler.compile at h
  obtain ⟨⟨c2, os⟩, haux, h⟩ := except_bind_ok _ _ _ h
  simp only [Compiler.clean_up] at h
  injection h with h
  obtain ⟨c1, os1, os2, ha, hb, rfl⟩ := compileAux_append_inv _ _ _ _ _ haux
  rw [compileAux_cons] at hb
  obtain ⟨⟨cm, o1⟩, h1, hb⟩ := except_bind_ok _ _ _ hb
  obtain ⟨⟨cf, o2⟩, hrest, hb⟩ := except_bind_ok _ _ _ hb
  injection hb with hb
  cases hb
  have h1' : Compiler.handle_object_statement c1
      (Statement.mk StatementType.OBJECT (StatementDataType.String name) ln col) =
      Except.ok (cm, o1) := h1
  obtain ⟨x, hdx, rfl, rfl⟩ := handle_object_ok _ _ _ _ h1'
  injection hdx with hdx
  obtain ⟨ho2, hcur⟩ := compileAux_no_face_object tail _ _ _ htail hrest
  rw [← h]
  subst hdx
  rw [hcur]
  simp only [Option.toList_some, ho2]
  rw [show os1 ++ (c1.cur_obj.toList ++ []) ++ [Object3d.from name] =
    (os1 ++ (c1.cur_obj.toList ++ [])) ++ [Object3d.from name] from by simp]
  rw [List.getLast?_concat]
  rfl

/-- Witness for C9: `o A` followed only by a comment compiles to a list
ending in the empty Unknown-format object named A. -/
theorem c9_empty_object_emitted_witness :
    ([Object3d.mk "A" VertexFormat.Unknown [] []].getLast? = some
      { name := "A", format := VertexFormat.Unknown,
        vertex_buffer := [], index_buffer := [] }) :=
  c9_empty_object_emitted "d" "A" 1 1 []
    [Statement.mk StatementType.COMMENT (StatementDataType.String "# x") 2 1]
    [Object3d.mk "A" VertexFormat.Unknown [] []]
    (by decide) (by decide)

/-- Witness for C10 (amended) at the triple `(1, 2, 0)`. -/
theorem c10_from_indices_transposed_witness :
    VertexFormat.from_indices (1, 2, 0) = VertexFormatDup.from_indices (1, 0, 2) ∧
    VertexFormat.from_indices (1, 2, 0) ≠ VertexFormatDup.from_indices (1, 2, 0) := by
  refine ⟨c10_from_indices_transposed.1 1 2 0, fun hc => ?_⟩
  have h := (c10_from_indices_transposed.2 1 2 0 (by decide)).mp hc
  simp at h

end Wfo
